import Mathlib

/-!
Verification of the attribute-read delegation bridge
(src/examples/tv-app/android/java/ContentAppAttributeDelegate.cpp) and the
board binding table (src/examples/lighting-app/telink/include/AppConfig.h)
against their natural-language specification.

The C++ function `ContentAppAttributeDelegate::Read` is embedded shallowly:
the JNI environment is modelled as an explicit state (outstanding local
references, pending Java exception) together with an event trace recording
every observable interaction (environment acquisition, diagnostic log lines,
the host call with its jint arguments, string extraction and release).
The host endpoint manager is a parameter: a function from the three jint
arguments to an outcome (an exception, a null string, or a string).
-/

namespace ContentApp

/-- The concrete read attribute path `chip::app::ConcreteReadAttributePath`:
an immutable triple of endpoint, cluster and attribute identifiers.
The C++ field types are declared in headers outside the excerpt, so the
fields are plain naturals here; width bounds are imposed by the separate
predicate PathWellFormed where a theorem needs them. -/
structure ConcreteReadAttributePath where
  mEndpointId : Nat
  mClusterId : Nat
  mAttributeId : Nat
deriving DecidableEq

/-- Modelled from the spec: the widths of the path identifier types, declared
in headers that are not part of the excerpt. Per the spec glossary and its
boundary-behaviour section, the endpoint and cluster identifiers are 16-bit
unsigned and the attribute identifier is 32-bit unsigned. -/
def PathWellFormed (p : ConcreteReadAttributePath) : Prop :=
  p.mEndpointId < 2 ^ 16 ∧ p.mClusterId < 2 ^ 16 ∧ p.mAttributeId < 2 ^ 32

instance (p : ConcreteReadAttributePath) : Decidable (PathWellFormed p) := by
  unfold PathWellFormed
  infer_instance

/-- The C++ conversion `static_cast<jint>(x)` applied to an unsigned value:
reduce modulo 2^32 and reinterpret the 32-bit pattern as a signed
integer in two-complement form. -/
def toJint (n : Nat) : Int :=
  if n % 2 ^ 32 < 2 ^ 31 then ((n % 2 ^ 32 : Nat) : Int)
  else ((n % 2 ^ 32 : Nat) : Int) - 2 ^ 32

/-- Severity of a chip log line: ChipLogProgress or ChipLogError. -/
inductive LogLevel where
  | progress
  | error
deriving DecidableEq

/-- The two log messages emitted by Read, identified by their contents. -/
inductive LogMsg where
  | readCalled (endpointId clusterId attributeId : Nat)
  | javaException
  | gotResponse (s : String)
deriving DecidableEq

/-- Observable events of one invocation of Read, in program order. -/
inductive Event where
  | getEnv
  | log (lvl : LogLevel) (msg : LogMsg)
  | callHost (endpointArg clusterArg attributeArg : Int)
  | getStringUTFChars
  | releaseStringUTFChars
  | deleteLocalRef
  | exceptionDescribe
  | exceptionClear
deriving DecidableEq

/-- Outcome of the host-side ReadAttribute method: it may raise a Java
exception, or return a (nullable) Java string. -/
inductive HostOutcome where
  | exception
  | ret (resp : Option String)
deriving DecidableEq

/-- The host endpoint manager: the delegate can only invoke one
three-jint-argument string-returning method on it. -/
structure HostBehavior where
  call : Int → Int → Int → HostOutcome

/-- The JNI-visible state threaded through a call: the number of outstanding
local references in the local reference table of the foreign runtime, and whether
a Java exception is pending. -/
structure JniState where
  localRefs : Nat
  pendingException : Bool
deriving DecidableEq

/-- Result of one invocation of Read: either a normal return carrying the
returned std::string, the event trace and the final JNI state, or undefined
behaviour (trace up to the faulting operation). -/
inductive ReadOutcome where
  | ok (value : String) (trace : List Event) (state : JniState)
  | ub (trace : List Event)
deriving DecidableEq

def ReadOutcome.trace : ReadOutcome → List Event
  | .ok _ t _ => t
  | .ub t => t

def ReadOutcome.value? : ReadOutcome → Option String
  | .ok v _ _ => some v
  | .ub _ => none

def ReadOutcome.state? : ReadOutcome → Option JniState
  | .ok _ _ σ => some σ
  | .ub _ => none

def ReadOutcome.isOk : ReadOutcome → Bool
  | .ok _ _ _ => true
  | .ub _ => false

/-- The function `ContentAppAttributeDelegate::Read`, embedded line by line.
`fixedEndpointCount` stands for the compile-time FIXED_ENDPOINT_COUNT;
`host` packages the held endpoint-manager handle and method descriptor.

Source trace: if the endpoint is statically compiled, return "" at once.
Otherwise acquire the JNI environment, log the triple at progress level,
invoke the host method with the three fields cast to jint (a non-null
string return creates one transient local reference), and then either
(a) on a pending exception: log at error level, describe and clear the
exception, and return "";
(b) on a null return: call GetStringUTFChars on null, undefined behaviour;
(c) on a string return: extract the UTF bytes, copy them into an owned
std::string, release the UTF bytes, delete the local reference, log the
response at progress level, and return the copy. -/
def Read (fixedEndpointCount : Nat) (host : HostBehavior) (σ : JniState)
    (aPath : ConcreteReadAttributePath) : ReadOutcome :=
  if aPath.mEndpointId < fixedEndpointCount then
    .ok "" [] σ
  else
    let e := toJint aPath.mEndpointId
    let c := toJint aPath.mClusterId
    let a := toJint aPath.mAttributeId
    let pre : List Event :=
      [.getEnv,
       .log .progress (.readCalled aPath.mEndpointId aPath.mClusterId aPath.mAttributeId),
       .callHost e c a]
    match host.call e c a with
    | .exception =>
        let σraised : JniState := { σ with pendingException := true }
        let σcleared : JniState := { σraised with pendingException := false }
        .ok "" (pre ++ [.log .error .javaException, .exceptionDescribe, .exceptionClear])
          σcleared
    | .ret none =>
        .ub (pre ++ [.getStringUTFChars])
    | .ret (some s) =>
        let σheld : JniState := { σ with localRefs := σ.localRefs + 1 }
        let σreleased : JniState := { σheld with localRefs := σheld.localRefs - 1 }
        .ok s
          (pre ++ [.getStringUTFChars, .releaseStringUTFChars, .deleteLocalRef,
                   .log .progress (.gotResponse s)])
          σreleased

def Event.isHostCall : Event → Bool
  | .callHost _ _ _ => true
  | _ => false

def Event.isGetEnv : Event → Bool
  | .getEnv => true
  | _ => false

def Event.isLog : Event → Bool
  | .log _ _ => true
  | _ => false

def Event.isProgressLog : Event → Bool
  | .log .progress _ => true
  | _ => false

def Event.isErrorLog : Event → Bool
  | .log .error _ => true
  | _ => false

def Event.namesTriple (e c a : Nat) : Event → Bool
  | .log .progress (.readCalled e' c' a') => e' = e && c' = c && a' = a
  | _ => false

def Event.isReleaseChars : Event → Bool
  | .releaseStringUTFChars => true
  | _ => false

def Event.isDeleteRef : Event → Bool
  | .deleteLocalRef => true
  | _ => false

def hostCallCount (t : List Event) : Nat := t.countP Event.isHostCall

def releaseCharsCount (t : List Event) : Nat := t.countP Event.isReleaseChars

def deleteRefCount (t : List Event) : Nat := t.countP Event.isDeleteRef

def getEnvCount (t : List Event) : Nat := t.countP Event.isGetEnv

def logCount (t : List Event) : Nat := t.countP Event.isLog

def progressLogCount (t : List Event) : Nat := t.countP Event.isProgressLog

def errorLogCount (t : List Event) : Nat := t.countP Event.isErrorLog

/-- The arguments of the first host call in a trace, if any. -/
def hostCallArgs? : List Event → Option (Int × Int × Int)
  | [] => none
  | .callHost e c a :: _ => some (e, c, a)
  | _ :: t => hostCallArgs? t

/-- Concrete host behaviours used to instantiate the theorems. -/
def hostOn : HostBehavior := ⟨fun _ _ _ => .ret (some "on")⟩

def hostOk : HostBehavior := ⟨fun _ _ _ => .ret (some "ok")⟩

def hostRaises : HostBehavior := ⟨fun _ _ _ => .exception⟩

def hostNull : HostBehavior := ⟨fun _ _ _ => .ret none⟩

def hostEmpty : HostBehavior := ⟨fun _ _ _ => .ret (some "")⟩

def jni0 : JniState := ⟨0, false⟩

end ContentApp

namespace TelinkLighting

/-! Board binding table from
src/examples/lighting-app/telink/include/AppConfig.h. Device-tree port
handles and PWM specifications are identified by the node label or alias
they are obtained from. -/

def BUTTON_PORT : String := "gpioc"

def BUTTON_PIN_1 : Nat := 2

def BUTTON_PIN_3 : Nat := 3

def BUTTON_PIN_4 : Nat := 1

def BUTTON_PIN_2 : Nat := 0

def SYSTEM_STATE_LED_PORT : String := "gpiob"

def SYSTEM_STATE_LED_PIN : Nat := 7

/-- The compile-time toggle `USE_RGB_PWM`, set to 0 in the header. -/
def USE_RGB_PWM : Bool := false

def LIGHTING_PWM_SPEC_BLUE : String := "pwm_led0"

/-- The flat table of symbolic bindings the header enumerates. -/
structure BoardBindingTable where
  buttonPort : String
  buttonPins : List Nat
  systemStateLedPort : String
  systemStateLedPins : List Nat
  primaryLightingPwmSpecs : List String
  rgbExtraPwmSpecs : List String
deriving DecidableEq

/-- The binding table defined by AppConfig.h, as a function of the
USE_RGB_PWM toggle. Button pins are listed in button order 1..4; the
green and red PWM specifications exist only under the toggle. -/
def boardBindingTable (useRgbPwm : Bool) : BoardBindingTable :=
  { buttonPort := BUTTON_PORT
    buttonPins := [BUTTON_PIN_1, BUTTON_PIN_2, BUTTON_PIN_3, BUTTON_PIN_4]
    systemStateLedPort := SYSTEM_STATE_LED_PORT
    systemStateLedPins := [SYSTEM_STATE_LED_PIN]
    primaryLightingPwmSpecs := [LIGHTING_PWM_SPEC_BLUE]
    rgbExtraPwmSpecs := if useRgbPwm then ["pwm_led1", "pwm_led2"] else [] }

/-- A list of naturals is contiguous when, sorted ascending, it is a run of
consecutive integers. -/
def isContiguous (l : List Nat) : Bool :=
  match l.insertionSort (· ≤ ·) with
  | [] => true
  | x :: _ => l.insertionSort (· ≤ ·) = List.range' x l.length

end TelinkLighting

namespace ContentApp

theorem toJint_emod (n : Nat) (h : n < 2 ^ 32) : toJint n % (2 ^ 32 : Int) = (n : Int) := by
  unfold toJint
  split <;> omega

theorem toJint_nonneg (n : Nat) (h : n < 2 ^ 16) : 0 ≤ toJint n := by
  unfold toJint
  split <;> omega

/-- C1: for every path whose endpoint identifier is strictly less than the
fixed endpoint count, Read returns the empty string, makes no host call,
and never acquires the JNI environment. -/
theorem Read_static_short_circuit (N : Nat) (host : HostBehavior) (σ : JniState)
    (p : ConcreteReadAttributePath) (h : p.mEndpointId < N) :
    (Read N host σ p).value? = some "" ∧
    hostCallCount (Read N host σ p).trace = 0 ∧
    getEnvCount (Read N host σ p).trace = 0 := by
  simp [Read, h, ReadOutcome.value?, ReadOutcome.trace, hostCallCount, getEnvCount]

/-- C1 witness: the static path at endpoint 3 with fixed endpoint count 5. -/
theorem Read_static_short_circuit_witness :
    (3 : Nat) < 5 ∧
    ((Read 5 hostOn jni0 ⟨3, 0x0006, 0x0000⟩).value? = some "" ∧
     hostCallCount (Read 5 hostOn jni0 ⟨3, 0x0006, 0x0000⟩).trace = 0 ∧
     getEnvCount (Read 5 hostOn jni0 ⟨3, 0x0006, 0x0000⟩).trace = 0) :=
  ⟨by decide, Read_static_short_circuit 5 hostOn jni0 ⟨3, 0x0006, 0x0000⟩ (by decide)⟩

/-- C9: on the static short-circuit path Read emits no diagnostic line of
any kind, progress or error: the trace contains no log event. -/
theorem Read_static_no_logs (N : Nat) (host : HostBehavior) (σ : JniState)
    (p : ConcreteReadAttributePath) (h : p.mEndpointId < N) :
    logCount (Read N host σ p).trace = 0 := by
  simp [Read, h, ReadOutcome.trace, logCount]

/-- C9 witness: the static path at endpoint 3 with fixed endpoint count 5. -/
theorem Read_static_no_logs_witness :
    (3 : Nat) < 5 ∧ logCount (Read 5 hostRaises jni0 ⟨3, 0x0006, 0x0000⟩).trace = 0 :=
  ⟨by decide, Read_static_no_logs 5 hostRaises jni0 ⟨3, 0x0006, 0x0000⟩ (by decide)⟩

/-- Helper: on the dynamic path the trace contains exactly one host call,
whatever the host outcome. -/
theorem hostCallCount_dynamic (N : Nat) (host : HostBehavior) (σ : JniState)
    (p : ConcreteReadAttributePath) (hdyn : ¬ p.mEndpointId < N) :
    hostCallCount (Read N host σ p).trace = 1 := by
  unfold Read
  rw [if_neg hdyn]
  rcases hc : host.call (toJint p.mEndpointId) (toJint p.mClusterId) (toJint p.mAttributeId)
    with _ | (_ | s) <;>
    simp [hc, ReadOutcome.trace, hostCallCount, Event.isHostCall]

/-- Helper: on the dynamic path the host-call arguments are the three path
fields converted by toJint, whatever the host outcome. -/
theorem hostCallArgs_dynamic (N : Nat) (host : HostBehavior) (σ : JniState)
    (p : ConcreteReadAttributePath) (hdyn : ¬ p.mEndpointId < N) :
    hostCallArgs? (Read N host σ p).trace =
      some (toJint p.mEndpointId, toJint p.mClusterId, toJint p.mAttributeId) := by
  unfold Read
  rw [if_neg hdyn]
  rcases hc : host.call (toJint p.mEndpointId) (toJint p.mClusterId) (toJint p.mAttributeId)
    with _ | (_ | s) <;>
    simp [hc, ReadOutcome.trace, hostCallArgs?]

/-- C2: every dynamic-path invocation (endpoint at least the fixed endpoint
count, the boundary included) makes exactly one host call, with the
endpoint, cluster and attribute identifiers converted by the signed 32-bit
cast toJint; the cast preserves the 32-bit pattern: reinterpreting each
argument as unsigned (mod 2^32) recovers the original identifier. -/
theorem Read_dynamic_single_call (N : Nat) (host : HostBehavior) (σ : JniState)
    (p : ConcreteReadAttributePath) (hdyn : ¬ p.mEndpointId < N) (hwf : PathWellFormed p) :
    hostCallCount (Read N host σ p).trace = 1 ∧
    hostCallArgs? (Read N host σ p).trace =
      some (toJint p.mEndpointId, toJint p.mClusterId, toJint p.mAttributeId) ∧
    toJint p.mEndpointId % (2 ^ 32 : Int) = (p.mEndpointId : Int) ∧
    toJint p.mClusterId % (2 ^ 32 : Int) = (p.mClusterId : Int) ∧
    toJint p.mAttributeId % (2 ^ 32 : Int) = (p.mAttributeId : Int) := by
  obtain ⟨he, hc, ha⟩ := hwf
  exact ⟨hostCallCount_dynamic N host σ p hdyn, hostCallArgs_dynamic N host σ p hdyn,
    toJint_emod _ (by omega), toJint_emod _ (by omega), toJint_emod _ ha⟩

/-- C2 witness: endpoint 10, cluster 0x050B, attribute 0xFFFD0000 (high bit
set) with fixed endpoint count 5; the attribute reaches the host as the
negative jint whose unsigned reinterpretation is 0xFFFD0000. -/
theorem Read_dynamic_single_call_witness :
    (¬ (10 : Nat) < 5) ∧ PathWellFormed ⟨10, 0x050B, 0xFFFD0000⟩ ∧
    (hostCallCount (Read 5 hostOk jni0 ⟨10, 0x050B, 0xFFFD0000⟩).trace = 1 ∧
     hostCallArgs? (Read 5 hostOk jni0 ⟨10, 0x050B, 0xFFFD0000⟩).trace =
       some (toJint 10, toJint 0x050B, toJint 0xFFFD0000) ∧
     toJint 10 % (2 ^ 32 : Int) = (10 : Int) ∧
     toJint 0x050B % (2 ^ 32 : Int) = (0x050B : Int) ∧
     toJint 0xFFFD0000 % (2 ^ 32 : Int) = (0xFFFD0000 : Int)) :=
  ⟨by decide, by decide,
   Read_dynamic_single_call 5 hostOk jni0 ⟨10, 0x050B, 0xFFFD0000⟩ (by decide) (by decide)⟩

/-- C10: on the dynamic path the endpoint and cluster arguments handed to
the host are non-negative jints, because both identifiers are 16-bit
unsigned values zero-extended into the 32-bit cast; the attribute argument
can appear negative, as toJint 0xFFFD0000 shows. -/
theorem Read_dynamic_args_nonneg (N : Nat) (host : HostBehavior) (σ : JniState)
    (p : ConcreteReadAttributePath) (hdyn : ¬ p.mEndpointId < N) (hwf : PathWellFormed p) :
    hostCallArgs? (Read N host σ p).trace =
      some (toJint p.mEndpointId, toJint p.mClusterId, toJint p.mAttributeId) ∧
    0 ≤ toJint p.mEndpointId ∧
    0 ≤ toJint p.mClusterId ∧
    toJint 0xFFFD0000 < 0 := by
  obtain ⟨he, hc, ha⟩ := hwf
  refine ⟨hostCallArgs_dynamic N host σ p hdyn, toJint_nonneg _ he, toJint_nonneg _ hc, ?_⟩
  decide

/-- C10 witness: endpoint 7, cluster 0x050C, attribute 0xFFFD0000 with fixed
endpoint count 5. -/
theorem Read_dynamic_args_nonneg_witness :
    (¬ (7 : Nat) < 5) ∧ PathWellFormed ⟨7, 0x050C, 0xFFFD0000⟩ ∧
    (hostCallArgs? (Read 5 hostRaises jni0 ⟨7, 0x050C, 0xFFFD0000⟩).trace =
       some (toJint 7, toJint 0x050C, toJint 0xFFFD0000) ∧
     0 ≤ toJint 7 ∧ 0 ≤ toJint 0x050C ∧ toJint 0xFFFD0000 < 0) :=
  ⟨by decide, by decide,
   Read_dynamic_args_nonneg 5 hostRaises jni0 ⟨7, 0x050C, 0xFFFD0000⟩ (by decide) (by decide)⟩

/-- C3: when the host call raises a Java exception, Read returns normally
(never propagating the exception) with the empty string, leaves no pending
exception in the final JNI state, and emits exactly one error-level
diagnostic. -/
theorem Read_exception_handled (N : Nat) (host : HostBehavior) (σ : JniState)
    (p : ConcreteReadAttributePath) (hdyn : ¬ p.mEndpointId < N)
    (hexc : host.call (toJint p.mEndpointId) (toJint p.mClusterId) (toJint p.mAttributeId) =
      .exception) :
    (Read N host σ p).isOk = true ∧
    (Read N host σ p).value? = some "" ∧
    (Read N host σ p).state? = some { σ with pendingException := false } ∧
    errorLogCount (Read N host σ p).trace = 1 := by
  unfold Read
  rw [if_neg hdyn]
  simp [hexc, ReadOutcome.isOk, ReadOutcome.value?, ReadOutcome.state?, ReadOutcome.trace,
    errorLogCount, Event.isErrorLog]

/-- C3 witness: endpoint 9, cluster 0x050C, attribute 3 against a host that
always raises. -/
theorem Read_exception_handled_witness :
    (¬ (9 : Nat) < 5) ∧
    hostRaises.call (toJint 9) (toJint 0x050C) (toJint 3) = .exception ∧
    ((Read 5 hostRaises jni0 ⟨9, 0x050C, 3⟩).isOk = true ∧
     (Read 5 hostRaises jni0 ⟨9, 0x050C, 3⟩).value? = some "" ∧
     (Read 5 hostRaises jni0 ⟨9, 0x050C, 3⟩).state? =
       some { jni0 with pendingException := false } ∧
     errorLogCount (Read 5 hostRaises jni0 ⟨9, 0x050C, 3⟩).trace = 1) :=
  ⟨by decide, by decide,
   Read_exception_handled 5 hostRaises jni0 ⟨9, 0x050C, 3⟩ (by decide) (by decide)⟩

/-- C4: when the host call returns a (non-null) string without an exception,
Read returns exactly that string (copied verbatim), releases the UTF byte
buffer once and deletes the transient local reference once, and the final
JNI state equals the entry state. -/
theorem Read_success_copies_and_releases (N : Nat) (host : HostBehavior) (σ : JniState)
    (p : ConcreteReadAttributePath) (s : String) (hdyn : ¬ p.mEndpointId < N)
    (hresp : host.call (toJint p.mEndpointId) (toJint p.mClusterId) (toJint p.mAttributeId) =
      .ret (some s)) :
    (Read N host σ p).value? = some s ∧
    releaseCharsCount (Read N host σ p).trace = 1 ∧
    deleteRefCount (Read N host σ p).trace = 1 ∧
    (Read N host σ p).state? = some σ := by
  unfold Read
  rw [if_neg hdyn]
  simp [hresp, ReadOutcome.value?, ReadOutcome.state?, ReadOutcome.trace,
    releaseCharsCount, deleteRefCount, Event.isReleaseChars, Event.isDeleteRef]

/-- C4 witness: endpoint 7, cluster 0x050C, attribute 0 against a host that
returns "on". -/
theorem Read_success_copies_and_releases_witness :
    (¬ (7 : Nat) < 5) ∧
    hostOn.call (toJint 7) (toJint 0x050C) (toJint 0) = .ret (some "on") ∧
    ((Read 5 hostOn jni0 ⟨7, 0x050C, 0⟩).value? = some "on" ∧
     releaseCharsCount (Read 5 hostOn jni0 ⟨7, 0x050C, 0⟩).trace = 1 ∧
     deleteRefCount (Read 5 hostOn jni0 ⟨7, 0x050C, 0⟩).trace = 1 ∧
     (Read 5 hostOn jni0 ⟨7, 0x050C, 0⟩).state? = some jni0) :=
  ⟨by decide, by decide,
   Read_success_copies_and_releases 5 hostOn jni0 ⟨7, 0x050C, 0⟩ "on" (by decide) (by decide)⟩

/-- C5 counterexample: a host that returns a null string without raising.
The code passes the null jstring straight to GetStringUTFChars, so the
invocation does not complete normally (undefined behaviour): the claim that
the operation cannot fail for any host return value is false. -/
theorem Read_null_not_handled_cex :
    (Read 5 hostNull jni0 ⟨6, 0x0506, 0x0001⟩).isOk = false ∧
    (Read 5 hostNull jni0 ⟨6, 0x0506, 0x0001⟩).value? = none := by decide

/-- C5 (amended): when the host returns the empty (non-null) string without
an exception, Read completes normally and returns the empty string. -/
theorem Read_empty_response_ok (N : Nat) (host : HostBehavior) (σ : JniState)
    (p : ConcreteReadAttributePath) (hdyn : ¬ p.mEndpointId < N)
    (hresp : host.call (toJint p.mEndpointId) (toJint p.mClusterId) (toJint p.mAttributeId) =
      .ret (some "")) :
    (Read N host σ p).isOk = true ∧ (Read N host σ p).value? = some "" := by
  unfold Read
  rw [if_neg hdyn]
  simp [hresp, ReadOutcome.isOk, ReadOutcome.value?]

/-- C5 witness: endpoint 6, cluster 0x0506, attribute 1 against a host that
returns the empty string. -/
theorem Read_empty_response_ok_witness :
    (¬ (6 : Nat) < 5) ∧
    hostEmpty.call (toJint 6) (toJint 0x0506) (toJint 1) = .ret (some "") ∧
    ((Read 5 hostEmpty jni0 ⟨6, 0x0506, 1⟩).isOk = true ∧
     (Read 5 hostEmpty jni0 ⟨6, 0x0506, 1⟩).value? = some "") :=
  ⟨by decide, by decide,
   Read_empty_response_ok 5 hostEmpty jni0 ⟨6, 0x0506, 1⟩ (by decide) (by decide)⟩

/-- C6: on every invocation that returns (static path, success path, and
the exceptional-condition path alike), the number of outstanding local
references in the final JNI state equals the number on entry. -/
theorem Read_local_refs_balanced (N : Nat) (host : HostBehavior) (σ : JniState)
    (p : ConcreteReadAttributePath) (v : String) (t : List Event) (σ' : JniState)
    (h : Read N host σ p = .ok v t σ') :
    σ'.localRefs = σ.localRefs := by
  unfold Read at h
  by_cases he : p.mEndpointId < N
  · rw [if_pos he] at h
    cases h
    rfl
  · rw [if_neg he] at h
    rcases hc : host.call (toJint p.mEndpointId) (toJint p.mClusterId) (toJint p.mAttributeId)
      with _ | (_ | s) <;> simp [hc] at h <;> obtain ⟨-, -, h3⟩ := h <;> rw [← h3]

/-- C6 witness: a successful dynamic read at endpoint 7 returns with the
local-reference count back at its entry value 0. -/
theorem Read_local_refs_balanced_witness :
    Read 5 hostOn jni0 ⟨7, 0x050C, 0⟩ =
      .ok "on"
        [.getEnv, .log .progress (.readCalled 7 0x050C 0), .callHost 7 0x050C 0,
         .getStringUTFChars, .releaseStringUTFChars, .deleteLocalRef,
         .log .progress (.gotResponse "on")]
        ⟨0, false⟩ ∧
    (⟨0, false⟩ : JniState).localRefs = jni0.localRefs :=
  ⟨by decide,
   Read_local_refs_balanced 5 hostOn jni0 ⟨7, 0x050C, 0⟩ "on"
     [.getEnv, .log .progress (.readCalled 7 0x050C 0), .callHost 7 0x050C 0,
      .getStringUTFChars, .releaseStringUTFChars, .deleteLocalRef,
      .log .progress (.gotResponse "on")]
     ⟨0, false⟩ (by decide)⟩

/-- C7 counterexample: a successful dynamic read emits two progress-level
lines (the triple line and the got-response line), not exactly one. -/
theorem Read_progress_count_cex :
    ¬ progressLogCount (Read 5 hostOn jni0 ⟨7, 0x050C, 0x0000⟩).trace = 1 ∧
    progressLogCount (Read 5 hostOn jni0 ⟨7, 0x050C, 0x0000⟩).trace = 2 := by decide

/-- C7 (amended): every boundary-crossing invocation emits exactly one
progress-level line naming the (endpoint, cluster, attribute) triple; the
exceptional path emits no further progress line, while a successful string
return adds one more progress line reporting the response (two in total). -/
theorem Read_progress_logging (N : Nat) (host : HostBehavior) (σ : JniState)
    (p : ConcreteReadAttributePath) (hdyn : ¬ p.mEndpointId < N) :
    (Read N host σ p).trace.countP
      (Event.namesTriple p.mEndpointId p.mClusterId p.mAttributeId) = 1 ∧
    (host.call (toJint p.mEndpointId) (toJint p.mClusterId) (toJint p.mAttributeId) =
        .exception →
      progressLogCount (Read N host σ p).trace = 1) ∧
    (∀ s,
      host.call (toJint p.mEndpointId) (toJint p.mClusterId) (toJint p.mAttributeId) =
          .ret (some s) →
      progressLogCount (Read N host σ p).trace = 2) := by
  unfold Read
  rw [if_neg hdyn]
  rcases hc : host.call (toJint p.mEndpointId) (toJint p.mClusterId) (toJint p.mAttributeId)
    with _ | (_ | s) <;>
    simp [hc, ReadOutcome.trace, progressLogCount, Event.isProgressLog, Event.namesTriple]

/-- C7 witness: the dynamic read at endpoint 7 with a host returning "on". -/
theorem Read_progress_logging_witness :
    (¬ (7 : Nat) < 5) ∧
    ((Read 5 hostOn jni0 ⟨7, 0x050C, 0⟩).trace.countP (Event.namesTriple 7 0x050C 0) = 1 ∧
     (hostOn.call (toJint 7) (toJint 0x050C) (toJint 0) = .exception →
       progressLogCount (Read 5 hostOn jni0 ⟨7, 0x050C, 0⟩).trace = 1) ∧
     (∀ s, hostOn.call (toJint 7) (toJint 0x050C) (toJint 0) = .ret (some s) →
       progressLogCount (Read 5 hostOn jni0 ⟨7, 0x050C, 0⟩).trace = 2)) :=
  ⟨by decide, Read_progress_logging 5 hostOn jni0 ⟨7, 0x050C, 0⟩ (by decide)⟩

end ContentApp

namespace TelinkLighting

/-- C8 counterexample: the four button pin numbers are 2, 0, 3 and 1 (in
button order), and sorted ascending they form the consecutive run
0, 1, 2, 3 — the pin numbers are contiguous, refuting the non-contiguity
part of the claim. -/
theorem buttonPins_contiguous_cex :
    (boardBindingTable USE_RGB_PWM).buttonPins = [2, 0, 3, 1] ∧
    isContiguous (boardBindingTable USE_RGB_PWM).buttonPins = true := by decide

/-- C8 (amended): for both values of the RGB toggle the table binds exactly
one system-state LED pin, exactly one primary lighting PWM channel, and
four distinct button pins on the named controller gpioc; the pin numbers in
button order are not ascending (the index-to-pin assignment is shuffled,
though the pins form the contiguous range 0..3), and the toggle, when
enabled, binds exactly the two additional green and red PWM channels. -/
theorem boardBindingTable_enumeration :
    (∀ b : Bool,
      (boardBindingTable b).systemStateLedPins.length = 1 ∧
      (boardBindingTable b).primaryLightingPwmSpecs.length = 1 ∧
      (boardBindingTable b).buttonPins.length = 4 ∧
      (boardBindingTable b).buttonPins.Nodup ∧
      (boardBindingTable b).buttonPort = "gpioc") ∧
    ¬ List.Sorted (· ≤ ·) (boardBindingTable USE_RGB_PWM).buttonPins ∧
    (boardBindingTable true).rgbExtraPwmSpecs = ["pwm_led1", "pwm_led2"] ∧
    (boardBindingTable false).rgbExtraPwmSpecs = [] := by
  refine ⟨?_, ?_, by decide, by decide⟩
  · intro b
    cases b <;> decide
  · decide

end TelinkLighting
